import Mathlib

/-!
Shallow embedding of the session-end journal pipeline of `src/backend/main.py`
(repository `mansi6409/edgeelite`).

The embedded code is:
  * `run_journal_pipeline` (main.py lines 72-152): the orchestrator that builds
    the session document, retrieves a grounding context, renders a prompt,
    invokes generation, and writes the per-session result cache;
  * `get_journal` (main.py lines 286-297): the poll endpoint reading the cache.

External collaborators (`process_session`, `StorageDB.get_raw_events_by_session`,
`search_similar`, `llm_service.generate_response`) are modelled as oracles that
either return a value or raise, i.e. functions into `Except String _`; a Python
exception caught by the orchestrator's `except Exception as e` block is the
`.error` case, carrying `str(e)`.  The module-level dict `journal_cache` is a
total map `String → Option JEntry`; `none` is "no entry for that key".
-/

/-- One row returned by `StorageDB.get_raw_events_by_session`.  The pipeline
reads only `event["source"]` and `event["text"]`; the list it receives is in
stored (timestamp) order, which we keep as the list order. -/
structure RawEvent where
  source : String
  text : String
deriving Repr, DecidableEq

/-- main.py lines 96-97:
`full_doc = "\n".join(event["text"] for event in raw_events if event["source"] in ("asr", "ocr"))`. -/
def buildFullDoc (raw_events : List RawEvent) : String :=
  String.intercalate "\n"
    ((raw_events.filter (fun event => event.source == "asr" || event.source == "ocr")).map
      (fun event => event.text))

/-- main.py lines 106-110: `remedy_context = ""` then, if `similar_results` is
non-empty (Python truthiness of a list), `remedy_context = similar_results[0][1]`. -/
def selectRemedyContext (similar_results : List (Float × String)) : String :=
  match similar_results with
  | [] => ""
  | top_result :: _ => top_result.2

/-- Literal fragment of the with-context f-string (main.py lines 114-116),
up to the `{full_doc}` interpolation. -/
def withCtxPre : String := "\n            Current session:\n            ```"

/-- Literal fragment of the with-context f-string (main.py lines 116-119),
between the `{full_doc}` and `{remedy_context}` interpolations. -/
def withCtxMid : String := "```\n            \n            This is the most relevant past experience that could be helpful for this results:\n            ```"

/-- Literal fragment of the with-context f-string (main.py lines 119-127),
after the `{remedy_context}` interpolation. -/
def withCtxPost : String := "```\n            \n            Task: Analyze the current session and provide:\n            1) A brief summary of the current situation and emotions (1-2 sentences)\n            2) Actionable guidance that draws insight from the related past experience\n            \n            If the past experience contains a successful approach or solution, reference it specifically.\n            Keep response under 120 words and make it personal and actionable.\n            "

/-- main.py lines 114-127: the with-context prompt f-string, as the
concatenation of its literal fragments and the two interpolated values. -/
def promptWithContext (full_doc remedy_context : String) : String :=
  withCtxPre ++ full_doc ++ withCtxMid ++ remedy_context ++ withCtxPost

/-- Literal fragment of the no-context f-string (main.py lines 129-131),
up to the `{full_doc}` interpolation (identical text to `withCtxPre`). -/
def noCtxPre : String := "\n            Current session:\n            ```"

/-- Literal fragment of the no-context f-string (main.py lines 131-138),
after the `{full_doc}` interpolation (note the two trailing blanks after
"(1-2 sentences)", present in the source line). -/
def noCtxPost : String := "```\n            \n            Task: Analyze this session and provide:\n            1) A brief summary of the current situation and emotions (1-2 sentences)  \n            2) Thoughtful, actionable guidance based on the content\n            \n            Keep response under 120 words and make it personal and actionable.\n            "

/-- main.py lines 129-138: the no-context prompt f-string. -/
def promptNoContext (full_doc : String) : String :=
  noCtxPre ++ full_doc ++ noCtxPost

/-- main.py lines 113-138: `if remedy_context:` (Python truthiness of a string
is non-emptiness) selects the with-context template, `else` the no-context one. -/
def buildPrompt (full_doc remedy_context : String) : String :=
  if remedy_context ≠ "" then promptWithContext full_doc remedy_context
  else promptNoContext full_doc

/-- Python string slicing `s[:n]`: the first `n` characters (code points). -/
def pyTake (s : String) (n : Nat) : String :=
  (s.toList.take n).asString

/-- A value stored in `journal_cache` (main.py lines 143-146 and 152): either
the success dict `{"summary_action": ..., "related_memory": ...}` or the error
dict `{"error": str(e)}`. -/
inductive JEntry where
  | success (summary_action : String) (related_memory : Option String)
  | error (msg : String)
deriving Repr, DecidableEq

/-- The key/value pairs of the cache-entry dict, in Python insertion order.
`related_memory` may be Python `None`, modelled as the value `none`. -/
def JEntry.toFields : JEntry → List (String × Option String)
  | .success summary_action related_memory =>
      [("summary_action", some summary_action), ("related_memory", related_memory)]
  | .error msg => [("error", some msg)]

/-- The `related_memory` value of a success entry (absent on error entries). -/
def JEntry.related_memory : JEntry → Option String
  | .success _ related_memory => related_memory
  | .error _ => none

/-- The module-level dict `journal_cache` (main.py line 70), as a total map;
`none` models the absence of a key. -/
def Cache := String → Option JEntry

/-- `journal_cache[session_id] = entry` (dict assignment at one key). -/
def Cache.put (cache : Cache) (session_id : String) (entry : JEntry) : Cache :=
  fun t => if t = session_id then some entry else cache t

/-- The external collaborators consumed by the pipeline, each of which may
return a value or raise (main.py lines 88-103 and 140). -/
structure Collaborators where
  process_session : String → Except String (List String)
  get_raw_events_by_session : String → Except String (List RawEvent)
  search_similar : String → Nat → Except String (List (Float × String))
  generate_response : String → List String → Except String String

/-- The body of the `try` block of `run_journal_pipeline` (main.py lines
85-146), up to the cache write: any collaborator raising short-circuits to
`.error`; on success it yields the generated `response` and the
`remedy_context` that was selected (both are used by the cache write). -/
def pipelineBody (co : Collaborators) (session_id : String) :
    Except String (String × String) := do
  let _node_ids ← co.process_session session_id
  let raw_events ← co.get_raw_events_by_session session_id
  let full_doc := buildFullDoc raw_events
  let similar_results ← co.search_similar full_doc 3
  let remedy_context := selectRemedyContext similar_results
  let prompt := buildPrompt full_doc remedy_context
  let response ← co.generate_response prompt []
  pure (response, remedy_context)

/-- main.py lines 143-146: the success cache entry
`{"summary_action": response, "related_memory": remedy_context[:200] if remedy_context else None}`. -/
def successEntry (response remedy_context : String) : JEntry :=
  .success response (if remedy_context ≠ "" then some (pyTake remedy_context 200) else none)

/-- main.py lines 72-152: `run_journal_pipeline(session_id)`.  The `try` body
either reaches the success write (lines 143-146) or its exception is caught
and the error write (line 152) runs; the function itself always returns
(it has result type `Cache`, not `Except _ Cache`). -/
def run_journal_pipeline (co : Collaborators) (cache : Cache) (session_id : String) : Cache :=
  match pipelineBody co session_id with
  | .ok (response, remedy_context) => cache.put session_id (successEntry response remedy_context)
  | .error e => cache.put session_id (.error e)

/-- The poll response `{"status": "processing", "session_id": session_id}`
(main.py line 297), as key/value pairs in insertion order. -/
def processingResponse (session_id : String) : List (String × Option String) :=
  [("status", some "processing"), ("session_id", some session_id)]

/-- The poll response `{"status": "done", "session_id": session_id, **entry}`
(main.py line 295). -/
def doneResponse (session_id : String) (entry : JEntry) : List (String × Option String) :=
  [("status", some "done"), ("session_id", some session_id)] ++ entry.toFields

/-- main.py lines 286-297: `get_journal`.  `entry = journal_cache.get(session_id)`;
`if entry:` is Python truthiness: the key is present and the dict non-empty.
The handler returns its response together with the (unmodified) cache, making
its effect on the shared state explicit. -/
def get_journal (cache : Cache) (session_id : String) :
    List (String × Option String) × Cache :=
  match cache session_id with
  | some entry =>
      if entry.toFields.isEmpty then (processingResponse session_id, cache)
      else (doneResponse session_id entry, cache)
  | none => (processingResponse session_id, cache)

/-- Modelled from the spec (External Interfaces, "Prompt templates (literal
structure, parameters in braces)"): the with-context template exactly as the
spec prints it, with `{document}` and `{context}` substituted.  Defined for
comparison with the code's `promptWithContext`. -/
def specWithContextPrompt (document context : String) : String :=
  "Current session: `" ++ document ++ "` — This is the most relevant past experience that could be helpful for this result: `" ++ context ++ "` — Task: (1) summarize current situation/emotion in 1-2 sentences, (2) give actionable guidance drawing on the related past experience, referencing a specific past solution if one exists. Keep response under 120 words, personal and actionable."

/-- Follows the spec's words (Data Model, "Session Document" and Testable
Properties, "Determinism of document construction"): the newline-join of the
texts of the `asr`/`ocr` events, in order, recursively: an excluded event
contributes nothing, an included event contributes its text, with a newline
separating it from whatever later included events contribute. -/
def specSessionDoc : List RawEvent → String
  | [] => ""
  | event :: rest =>
      if event.source == "asr" || event.source == "ocr" then
        if (rest.filter (fun e => e.source == "asr" || e.source == "ocr")).isEmpty then
          event.text
        else
          event.text ++ "\n" ++ specSessionDoc rest
      else specSessionDoc rest

/-- A concrete collaborator pack (all calls succeed) used by witness instances;
it realises the spec's end-to-end scenario of Testable Properties. -/
def coOk : Collaborators where
  process_session := fun _ => .ok ["n1"]
  get_raw_events_by_session := fun _ => .ok [⟨"asr", "I bombed the interview"⟩]
  search_similar := fun _ _ =>
    .ok [(0.8, "Last time I practiced with mock interviews and it went better")]
  generate_response := fun _ _ => .ok "summary"

/-- A concrete collaborator pack whose similarity search returns one candidate
with empty-string content and whose generation echoes its prompt; used by
witness instances. -/
def coEmptyCtx : Collaborators where
  process_session := fun _ => .ok []
  get_raw_events_by_session := fun _ => .ok [⟨"ocr", "hello"⟩]
  search_similar := fun _ _ => .ok [(0.5, "")]
  generate_response := fun prompt _ => .ok prompt

/-- The empty cache (no session has an entry). -/
def emptyCache : Cache := fun _ => none

/-- A concrete cache holding an error entry for session `"s1"` only. -/
def cacheErr : Cache := fun t => if t = "s1" then some (.error "boom") else none

example : buildFullDoc [⟨"asr", "a"⟩, ⟨"clipboard", "x"⟩, ⟨"ocr", "b"⟩] = "a\nb" := by rfl
example : selectRemedyContext [(0.9, "a"), (0.5, "b")] = "a" := by rfl
example : pyTake "abc" 2 = "ab" := by rfl

/-! ## General helper lemmas (shared by several claim theorems) -/

theorem exc_ok_bind {ε α β : Type} (a : α) (f : α → Except ε β) :
    (Except.ok a : Except ε α) >>= f = f a := rfl

theorem exc_error_bind {ε α β : Type} (e : ε) (f : α → Except ε β) :
    (Except.error e : Except ε α) >>= f = Except.error e := rfl

theorem exc_map_ok {ε α β : Type} (f : α → β) (a : α) :
    f <$> (Except.ok a : Except ε α) = Except.ok (f a) := rfl

theorem exc_map_error {ε α β : Type} (f : α → β) (e : ε) :
    f <$> (Except.error e : Except ε α) = Except.error e := rfl

theorem intercalate_go_append (sep : String) (bs : List String) :
    ∀ acc b : String,
      String.intercalate.go (acc ++ sep ++ b) sep bs
        = acc ++ sep ++ String.intercalate.go b sep bs := by
  induction bs with
  | nil => intro acc b; rfl
  | cons c cs ih =>
      intro acc b
      show String.intercalate.go (acc ++ sep ++ b ++ sep ++ c) sep cs
            = acc ++ sep ++ String.intercalate.go (b ++ sep ++ c) sep cs
      have harg : acc ++ sep ++ b ++ sep ++ c = acc ++ sep ++ (b ++ sep ++ c) := by
        simp [String.append_assoc]
      rw [harg]
      exact ih acc (b ++ sep ++ c)

theorem intercalate_cons (sep a : String) (as : List String) :
    String.intercalate sep (a :: as)
      = if as.isEmpty then a else a ++ sep ++ String.intercalate sep as := by
  cases as with
  | nil => rfl
  | cons b bs =>
      show String.intercalate.go (a ++ sep ++ b) sep bs
            = a ++ sep ++ String.intercalate sep (b :: bs)
      exact intercalate_go_append sep bs a b

theorem string_length_toList (s : String) : s.length = s.toList.length := rfl

theorem pyTake_length_le (s : String) (n : Nat) : (pyTake s n).length ≤ n := by
  rw [pyTake, List.length_asString, List.length_take]
  exact Nat.min_le_left _ _

theorem pyTake_eq_self_iff (s : String) (n : Nat) : pyTake s n = s ↔ s.length ≤ n := by
  constructor
  · intro h
    have hlen := congrArg String.length h
    rw [pyTake, List.length_asString, List.length_take, string_length_toList] at hlen
    rw [string_length_toList]
    omega
  · intro h
    have hl : s.toList.length ≤ n := h
    rw [pyTake, List.take_of_length_le hl, String.asString_toList]

/-! ## Claim theorems -/

/-- C4: the Retrieval Context Selector (main.py lines 106-110) is a pure
function of the ranked candidate list: the empty list yields the absent
(empty) context, and any non-empty list yields the content of its first
element, whatever the scores are (no similarity threshold, no re-ranking). -/
theorem selectRemedyContext_select :
    selectRemedyContext [] = "" ∧
    (∀ (score : Float) (content : String) (rest : List (Float × String)),
      selectRemedyContext ((score, content) :: rest) = content) :=
  ⟨rfl, fun _ _ _ => rfl⟩

/-- C5: prompt template selection (main.py lines 113-138) depends only on
whether the grounding context is empty: empty context yields the no-context
template, and any non-empty context `x` yields the with-context template,
which contains `x` verbatim and the full, untruncated session document
(the template is the literal concatenation around both values). -/
theorem buildPrompt_template_branching (full_doc remedy_context : String) :
    buildPrompt full_doc "" = promptNoContext full_doc ∧
    (remedy_context ≠ "" →
      buildPrompt full_doc remedy_context
        = withCtxPre ++ full_doc ++ withCtxMid ++ remedy_context ++ withCtxPost) := by
  constructor
  · simp [buildPrompt]
  · intro h
    simp [buildPrompt, h, promptWithContext]

/-- Witness for C5 at the concrete document `"doc"` and context `"x"`. -/
theorem buildPrompt_template_branching_witness :
    ("x" : String) ≠ "" ∧
    buildPrompt "doc" "x" = withCtxPre ++ "doc" ++ withCtxMid ++ "x" ++ withCtxPost :=
  ⟨by decide, (buildPrompt_template_branching "doc" "x").2 (by decide)⟩

/-- C6 counterexample: at document `"d"` and context `"c"`, the with-context
prompt the code renders is not the literal template text printed in the spec's
External Interfaces section (the code's template is multi-line and indented,
and reads "helpful for this results" where the spec prints
"helpful for this result"). -/
theorem promptWithContext_ne_specTemplate :
    promptWithContext "d" "c" ≠ specWithContextPrompt "d" "c" := by decide

/-- C6 amended: for every document and non-empty context, the with-context
prompt rendered by the pipeline equals the code's own literal f-string
(main.py lines 114-127) with the document and context substituted — not the
spec's one-line rendering of it. -/
theorem promptWithContext_code_literal (full_doc remedy_context : String)
    (h : remedy_context ≠ "") :
    buildPrompt full_doc remedy_context
      = "\n            Current session:\n            ```" ++ full_doc
        ++ "```\n            \n            This is the most relevant past experience that could be helpful for this results:\n            ```"
        ++ remedy_context
        ++ "```\n            \n            Task: Analyze the current session and provide:\n            1) A brief summary of the current situation and emotions (1-2 sentences)\n            2) Actionable guidance that draws insight from the related past experience\n            \n            If the past experience contains a successful approach or solution, reference it specifically.\n            Keep response under 120 words and make it personal and actionable.\n            " := by
  simp [buildPrompt, h, promptWithContext, withCtxPre, withCtxMid, withCtxPost]

/-- Witness for the amended C6 at the concrete document `"d"` and context `"c"`. -/
theorem promptWithContext_code_literal_witness :
    ("c" : String) ≠ "" ∧
    buildPrompt "d" "c"
      = "\n            Current session:\n            ```" ++ "d"
        ++ "```\n            \n            This is the most relevant past experience that could be helpful for this results:\n            ```"
        ++ "c"
        ++ "```\n            \n            Task: Analyze the current session and provide:\n            1) A brief summary of the current situation and emotions (1-2 sentences)\n            2) Actionable guidance that draws insight from the related past experience\n            \n            If the past experience contains a successful approach or solution, reference it specifically.\n            Keep response under 120 words and make it personal and actionable.\n            " :=
  ⟨by decide, promptWithContext_code_literal "d" "c" (by decide)⟩

/-- C9: the poll handler `get_journal` (main.py lines 286-297) is read-only:
on every cache state and session id it returns the cache exactly as it found
it, so polling never alters what later polls or pipeline runs observe. -/
theorem get_journal_readonly (cache : Cache) (session_id : String) :
    (get_journal cache session_id).2 = cache := by
  unfold get_journal
  cases cache session_id with
  | none => rfl
  | some entry =>
      dsimp only
      split <;> rfl

/-- C7: in every successful cache entry (main.py lines 143-146),
`related_memory` is absent when `remedy_context` is empty and is the first
200 characters of `remedy_context` otherwise; whenever present its length is
at most 200 and it equals `remedy_context` exactly when `remedy_context` has
at most 200 characters; and the prompt is built from the full, untruncated
`remedy_context`. -/
theorem relatedMemory_truncation (response remedy_context : String) :
    (remedy_context = "" → (successEntry response remedy_context).related_memory = none) ∧
    (remedy_context ≠ "" →
      (successEntry response remedy_context).related_memory
        = some (pyTake remedy_context 200)) ∧
    (∀ m, (successEntry response remedy_context).related_memory = some m →
      m.length ≤ 200 ∧ (m = remedy_context ↔ remedy_context.length ≤ 200)) ∧
    (remedy_context ≠ "" → ∀ full_doc,
      buildPrompt full_doc remedy_context
        = withCtxPre ++ full_doc ++ withCtxMid ++ remedy_context ++ withCtxPost) := by
  refine ⟨?_, ?_, ?_, ?_⟩
  · intro h
    simp [successEntry, JEntry.related_memory, h]
  · intro h
    simp [successEntry, JEntry.related_memory, h]
  · intro m hm
    by_cases h : remedy_context = ""
    · simp [successEntry, JEntry.related_memory, h] at hm
    · simp [successEntry, JEntry.related_memory, h] at hm
      subst hm
      exact ⟨pyTake_length_le remedy_context 200, pyTake_eq_self_iff remedy_context 200⟩
  · intro h full_doc
    simp [buildPrompt, h, promptWithContext]

/-- Witness for C7 at the concrete response `"r"` and context `"mem"`. -/
theorem relatedMemory_truncation_witness :
    ("mem" : String) ≠ "" ∧
    (successEntry "r" "mem").related_memory = some (pyTake "mem" 200) :=
  ⟨by decide, (relatedMemory_truncation "r" "mem").2.1 (by decide)⟩

/-- C3: the Session Document (main.py lines 96-97) is the newline-join of the
texts of exactly the `asr`/`ocr` events, in stored order (first conjunct:
it is the spec-worded recursive join), and events with any other source leave
it unchanged (second conjunct: filtering them away first gives the same
string).  Determinism is inherent: `buildFullDoc` is a function of the event
list alone. -/
theorem buildFullDoc_matches_spec (raw_events : List RawEvent) :
    buildFullDoc raw_events = specSessionDoc raw_events ∧
    buildFullDoc raw_events
      = buildFullDoc
          (raw_events.filter (fun e => e.source == "asr" || e.source == "ocr")) := by
  constructor
  · induction raw_events with
    | nil => rfl
    | cons event rest ih =>
        by_cases hp : (event.source == "asr" || event.source == "ocr") = true
        · rw [specSessionDoc]
          simp only [buildFullDoc, List.filter_cons, hp, if_true, List.map_cons]
          rw [intercalate_cons]
          by_cases he :
              (rest.filter (fun e => e.source == "asr" || e.source == "ocr")) = []
          · simp [he]
          · have he2 : ((rest.filter
                (fun e => e.source == "asr" || e.source == "ocr")).map
                  (fun event => event.text)).isEmpty = false := by
              simp [List.isEmpty_eq_false, List.map_eq_nil_iff, he]
            have he3 : (rest.filter
                (fun e => e.source == "asr" || e.source == "ocr")).isEmpty = false := by
              simp [List.isEmpty_eq_false, he]
            simp only [he2, he3, if_false]
            rw [← ih]
            rfl
        · rw [specSessionDoc]
          simp only [buildFullDoc, List.filter_cons, hp, if_false]
          rw [← ih]
          rfl
  · simp [buildFullDoc, List.filter_filter]

/-- C1: for every collaborator behavior (success or raise at any step), the
orchestrator (main.py lines 72-152) returns normally (it is a total function
into `Cache`) and leaves an entry for `session_id` whose dict has the
`summary_action` key and not the `error` key, or the `error` key and not the
`summary_action` key — never both, never neither. -/
theorem run_journal_pipeline_always_caches (co : Collaborators) (cache : Cache)
    (session_id : String) :
    ∃ entry : JEntry,
      run_journal_pipeline co cache session_id session_id = some entry ∧
      (("summary_action" ∈ entry.toFields.map Prod.fst ∧
        "error" ∉ entry.toFields.map Prod.fst) ∨
       ("error" ∈ entry.toFields.map Prod.fst ∧
        "summary_action" ∉ entry.toFields.map Prod.fst)) := by
  cases hb : pipelineBody co session_id with
  | ok v =>
      obtain ⟨response, remedy⟩ := v
      refine ⟨successEntry response remedy, ?_, Or.inl ⟨?_, ?_⟩⟩
      · simp [run_journal_pipeline, hb, Cache.put]
      · simp [successEntry, JEntry.toFields]
      · simp [successEntry, JEntry.toFields]
  | error e =>
      refine ⟨.error e, ?_, Or.inr ⟨?_, ?_⟩⟩
      · simp [run_journal_pipeline, hb, Cache.put]
      · simp [JEntry.toFields]
      · simp [JEntry.toFields]

/-- C2: the poll (main.py lines 286-297) answers "processing" exactly when no
cache entry exists for the session id; when an entry exists it answers "done"
followed by all the entry's fields, and in particular an error entry's
message is surfaced verbatim under the `error` key (so after an error is
written the poll never answers "processing"). -/
theorem get_journal_poll_contract (cache : Cache) (session_id : String) :
    ((get_journal cache session_id).1 = processingResponse session_id ↔
        cache session_id = none) ∧
    (∀ entry, cache session_id = some entry →
        (get_journal cache session_id).1 = doneResponse session_id entry) ∧
    (∀ msg, cache session_id = some (.error msg) →
        ("error", some msg) ∈ (get_journal cache session_id).1) := by
  cases hc : cache session_id with
  | none =>
      refine ⟨by simp [get_journal, hc], ?_, ?_⟩
      · intro entry h
        exact absurd h (by simp)
      · intro msg h
        exact absurd h (by simp)
  | some entry =>
      have hne : entry.toFields.isEmpty = false := by cases entry <;> rfl
      have hg : (get_journal cache session_id).1 = doneResponse session_id entry := by
        simp [get_journal, hc, hne]
      refine ⟨?_, ?_, ?_⟩
      · rw [hg]
        constructor
        · intro h
          exfalso
          simp [doneResponse, processingResponse] at h
        · intro h
          exact absurd h (by simp)
      · intro e2 h
        have he2 : entry = e2 := by injection h
        rw [hg, he2]
      · intro msg h
        have hmsg : entry = .error msg := by injection h
        rw [hg, hmsg]
        simp [doneResponse, JEntry.toFields]

/-- Witness for C2: on a cache holding `{error: "boom"}` for `"s1"`, polling
`"s1"` surfaces the message verbatim under the `error` key. -/
theorem get_journal_poll_contract_witness :
    cacheErr "s1" = some (JEntry.error "boom") ∧
    ("error", some "boom") ∈ (get_journal cacheErr "s1").1 :=
  ⟨rfl, (get_journal_poll_contract cacheErr "s1").2.2 "boom" rfl⟩

/-- C8: a pipeline run for one session id writes only that key: every other
session id's entry (or absence of one) is untouched, whether the run
succeeded or failed. -/
theorem run_journal_pipeline_frame (co : Collaborators) (cache : Cache)
    (session_id other : String) (h : other ≠ session_id) :
    run_journal_pipeline co cache session_id other = cache other := by
  cases hb : pipelineBody co session_id with
  | ok v =>
      obtain ⟨response, remedy⟩ := v
      simp [run_journal_pipeline, hb, Cache.put, h]
  | error e =>
      simp [run_journal_pipeline, hb, Cache.put, h]

/-- Witness for C8: a run for session `"A"` leaves session `"B"` absent. -/
theorem run_journal_pipeline_frame_witness :
    ("B" : String) ≠ "A" ∧ run_journal_pipeline coOk emptyCache "A" "B" = emptyCache "B" :=
  ⟨by decide, run_journal_pipeline_frame coOk emptyCache "A" "B" (by decide)⟩

/-- C10: when similarity search yields a non-empty candidate list whose first
element has empty-string content, the run is indistinguishable from one where
the candidate list is empty: the whole run produces the same cache (first
conjunct), any success entry it writes has `related_memory = none` (second
conjunct), and generation is invoked with the no-context prompt, whose answer
becomes the cached `summary_action` (third conjunct). -/
theorem pipeline_empty_content_candidate (co : Collaborators) (score : Float)
    (rest : List (Float × String)) (cache : Cache) (session_id : String)
    (hs : ∀ d k, co.search_similar d k = .ok ((score, "") :: rest)) :
    (run_journal_pipeline co cache session_id
      = run_journal_pipeline
          { co with search_similar := fun _ _ => .ok [] } cache session_id) ∧
    (∀ r m, run_journal_pipeline co cache session_id session_id
        = some (.success r m) → m = none) ∧
    (∀ nodes events resp,
        co.process_session session_id = .ok nodes →
        co.get_raw_events_by_session session_id = .ok events →
        co.generate_response (promptNoContext (buildFullDoc events)) [] = .ok resp →
        run_journal_pipeline co cache session_id session_id
          = some (.success resp none)) := by
  have hsel : ∀ r m, pipelineBody co session_id = .ok (r, m) → m = "" := by
    intro r m hok
    cases hp : co.process_session session_id with
    | error e => simp [pipelineBody, hp, exc_error_bind] at hok
    | ok nodes =>
        cases he : co.get_raw_events_by_session session_id with
        | error e => simp [pipelineBody, hp, he, exc_ok_bind, exc_error_bind] at hok
        | ok events =>
            cases hg : co.generate_response
                (buildPrompt (buildFullDoc events) "") [] with
            | error e =>
                simp [pipelineBody, hp, he, hs, hg, selectRemedyContext,
                  exc_ok_bind, exc_error_bind, exc_map_ok, exc_map_error] at hok
            | ok resp =>
                simp [pipelineBody, hp, he, hs, hg, selectRemedyContext,
                  exc_ok_bind, exc_error_bind, exc_map_ok, exc_map_error] at hok
                exact hok.2.symm
  refine ⟨?_, ?_, ?_⟩
  · have hbody : pipelineBody co session_id
        = pipelineBody { co with search_similar := fun _ _ => .ok [] } session_id := by
      cases hp : co.process_session session_id with
      | error e => simp [pipelineBody, hp, exc_error_bind]
      | ok nodes =>
          cases he : co.get_raw_events_by_session session_id with
          | error e => simp [pipelineBody, hp, he, exc_ok_bind, exc_error_bind]
          | ok events =>
              simp [pipelineBody, hp, he, hs, selectRemedyContext,
                exc_ok_bind, exc_map_ok, exc_map_error]
    rw [run_journal_pipeline, run_journal_pipeline, hbody]
  · intro r m hrm
    cases hb : pipelineBody co session_id with
    | ok v =>
        obtain ⟨resp, remedy⟩ := v
        have hre : remedy = "" := hsel resp remedy hb
        subst hre
        rw [run_journal_pipeline, hb] at hrm
        simp [Cache.put, successEntry] at hrm
        exact hrm.2.symm
    | error e =>
        rw [run_journal_pipeline, hb] at hrm
        simp [Cache.put] at hrm
  · intro nodes events resp hp he hg
    have hb : pipelineBody co session_id = .ok (resp, "") := by
      have hprompt : buildPrompt (buildFullDoc events) "" = promptNoContext (buildFullDoc events) := by
        simp [buildPrompt]
      simp [pipelineBody, hp, he, hs, selectRemedyContext, hprompt, hg,
        exc_ok_bind, exc_error_bind, exc_map_ok, exc_map_error]
    rw [run_journal_pipeline, hb]
    simp [Cache.put, successEntry]

/-- Witness for C10: the concrete collaborator pack `coEmptyCtx` (one
candidate with empty content, echoing generator) caches the no-context prompt
as the summary with `related_memory` absent. -/
theorem pipeline_empty_content_candidate_witness :
    (∀ d k, coEmptyCtx.search_similar d k = Except.ok [((0.5 : Float), "")]) ∧
    run_journal_pipeline coEmptyCtx emptyCache "s1" "s1"
      = some (.success (promptNoContext (buildFullDoc [⟨"ocr", "hello"⟩])) none) :=
  ⟨fun _ _ => rfl,
   (pipeline_empty_content_candidate coEmptyCtx 0.5 [] emptyCache "s1"
      (fun _ _ => rfl)).2.2 [] [⟨"ocr", "hello"⟩]
      (promptNoContext (buildFullDoc [⟨"ocr", "hello"⟩])) rfl rfl rfl⟩

/-- Witness for C1 at a concrete collaborator pack and the empty cache. -/
theorem run_journal_pipeline_always_caches_witness :
    ∃ entry : JEntry,
      run_journal_pipeline coOk emptyCache "s1" "s1" = some entry ∧
      (("summary_action" ∈ entry.toFields.map Prod.fst ∧
        "error" ∉ entry.toFields.map Prod.fst) ∨
       ("error" ∈ entry.toFields.map Prod.fst ∧
        "summary_action" ∉ entry.toFields.map Prod.fst)) :=
  run_journal_pipeline_always_caches coOk emptyCache "s1"
